import Mathlib

/-!
Verification development for the omnimcp repository (pulsar_mcp package).

The embedding follows the Python sources under `src/`:
* `src/pulsar_mcp/services/embedding.py` — `EmbeddingService.weighted_embedding`;
* `src/pulsar_mcp/mcp_server.py` — the front-end tool functions
  `semantic_search`, `get_server_info`, `list_indexed_servers`,
  `manage_server`, `list_running_servers`, `execute_tool`.

The modules `src/omnimcp/types.py` (the `McpStartupConfig` model, exercised
by `tests/test_types.py`) and `src/pulsar_mcp/mcp_engine.py` (the `MCPEngine`
class: session lifecycle and the execution router) are not present in the
source tree; the definitions for them below are modelled from the
specification (§4.2, §4.3, §6, §8) and are marked as such in their doc
comments.
-/

namespace OmniMCP

/-! ## Server startup configuration -/

/-- Modelled from the spec: typed validation failure of `McpStartupConfig`
(`src/omnimcp/types.py` is absent from the tree).  §6: "Validation fails with
a ConfigError if both or neither of `command`/`url` are present."  The two
constructors correspond to the two failure messages asserted by
`tests/test_types.py` (`TestMcpStartupConfigValidation`). -/
inductive ConfigError where
  | bothUrlAndCommand
  | neitherUrlNorCommand
deriving DecidableEq, Repr

/-- Modelled from the spec: the per-server startup configuration
(`McpStartupConfig` of `src/omnimcp/types.py`, absent from the tree).
Fields and defaults follow §3 (ServerConfig), §6 (configuration input) and
`tests/test_types.py`: `command`/`args`/`env` for the process transport,
`url`/`headers` for the network transport, plus `timeout` (default 30),
`overwrite`, `ignore`, `hints`, `blocked_tools`.  There is deliberately no
stored transport field: §3 "Invariant: `transportKind` is a derived,
read-only property computed from which field group is populated; never
stored independently." -/
structure McpStartupConfig where
  command : Option String
  args : List String
  env : List (String × String)
  url : Option String
  headers : List (String × String)
  timeout : ℚ
  overwrite : Bool
  ignore : Bool
  hints : Option (List String)
  blocked_tools : Option (List String)
deriving DecidableEq, Repr

/-- Modelled from the spec: validated construction of `McpStartupConfig`
(the pydantic model validator of the absent `src/omnimcp/types.py`).
§9: "Dynamic structural validation (the exactly-one-of-two-field-groups
rule) is implemented as an explicit post-construction invariant check
returning a typed validation failure."  Supplying both `command` and `url`
or neither fails with the corresponding `ConfigError`; otherwise the
record is built as given. -/
def mkMcpStartupConfig (command : Option String) (args : List String)
    (env : List (String × String)) (url : Option String)
    (headers : List (String × String)) (timeout : ℚ) (overwrite : Bool)
    (ignore : Bool) (hints : Option (List String))
    (blocked_tools : Option (List String)) :
    Except ConfigError McpStartupConfig :=
  match command, url with
  | some _, some _ => .error .bothUrlAndCommand
  | none, none => .error .neitherUrlNorCommand
  | _, _ =>
      .ok { command := command, args := args, env := env, url := url,
            headers := headers, timeout := timeout, overwrite := overwrite,
            ignore := ignore, hints := hints, blocked_tools := blocked_tools }

/-- Modelled from the spec: the derived `transport` property of
`McpStartupConfig` (absent `src/omnimcp/types.py`).  §3: derived from which
field group is populated; `tests/test_types.py` asserts `"stdio"` for the
command group and `"http"` for the url group. -/
def McpStartupConfig.transport (c : McpStartupConfig) : String :=
  if c.url.isSome then "http" else "stdio"

/-! ## Embedding service (`src/pulsar_mcp/services/embedding.py`) -/

/-- `EmbeddingService.weighted_embedding` (embedding.py, lines 36–40):
`alpha * base + (1 - alpha) * corpus` with numpy broadcasting — every
corpus row is blended componentwise with the base vector.  Numeric values
are modelled as rationals. -/
def weighted_embedding (base_embedding : List ℚ)
    (corpus_embeddings : List (List ℚ)) (alpha : ℚ) : List (List ℚ) :=
  corpus_embeddings.map fun row =>
    List.zipWith (fun b x => alpha * b + (1 - alpha) * x) base_embedding row

/-- The Python default of the `alpha` keyword of `weighted_embedding`. -/
def defaultAlpha : ℚ := 1 / 10

/-! ## Engine state: session lifecycle and execution router

`src/pulsar_mcp/mcp_engine.py` is absent from the tree; the `MCPEngine`
operations below (`startServer`, `shutdownServer`, `listRunning`,
`executeTool`) are modelled from the spec, §4.2 (Session Manager) and §4.3
(Execution Router). -/

/-- Session status, §3 (RunningSession). -/
inductive SessionStatus where
  | starting
  | running
  | stopping
  | failed
deriving DecidableEq, Repr

/-- §3: one `RunningSession` per active server connection.  The transport
handle itself is external and not modelled. -/
structure RunningSession where
  serverName : String
  startedAt : Nat
  status : SessionStatus
deriving DecidableEq, Repr

/-- Engine-owned state: the configured servers and the map of currently
running sessions (§9: "a single explicitly owned registry (map from server
name to session handle)"), both as association lists keyed by server
name. -/
structure EngineState where
  configs : List (String × McpStartupConfig)
  sessions : List (String × RunningSession)
deriving DecidableEq, Repr

/-- Association-list lookup used for both registries. -/
def findEntry {α : Type} (name : String) : List (String × α) → Option α
  | [] => none
  | (k, v) :: rest => if k = name then some v else findEntry name rest

/-- Insert or replace the session registered under `name`. -/
def putSession (st : EngineState) (name : String) (s : RunningSession) :
    EngineState :=
  { st with
    sessions := (name, s) :: st.sessions.filter (fun e => e.1 ≠ name) }

/-- Drop the session registered under `name`. -/
def dropSession (st : EngineState) (name : String) : EngineState :=
  { st with sessions := st.sessions.filter (fun e => e.1 ≠ name) }

/-- Well-formed engine state: the session registry has no duplicate keys. -/
def EngineState.WF (st : EngineState) : Prop :=
  (st.sessions.map Prod.fst).Nodup

/-- Modelled from the spec: `MCPEngine.start_mcp_server` (§4.2).
"`start` is a no-op returning true if a session for that name is already
`running`; otherwise it looks up the ServerConfig, opens a transport
session with a hard timeout (`timeoutSeconds`), and transitions the session
to `running` on success or `failed` on timeout/error."  The outcome of the
transport open (success vs. timeout/error) is the oracle `transportOk`;
`now` stamps `startedAt`. -/
def startServer (st : EngineState) (name : String) (now : Nat)
    (transportOk : Bool) : EngineState × Bool :=
  let attempt : EngineState × Bool :=
    match findEntry name st.configs with
    | none => (st, false)
    | some _ =>
        if transportOk then
          (putSession st name
            { serverName := name, startedAt := now,
              status := SessionStatus.running }, true)
        else
          (putSession st name
            { serverName := name, startedAt := now,
              status := SessionStatus.failed }, false)
  match findEntry name st.sessions with
  | some s =>
      if s.status = SessionStatus.running then (st, true) else attempt
  | none => attempt

/-- Modelled from the spec: `MCPEngine.shutdown_mcp_server` (§4.2).
"`shutdown` closes the transport and removes the entry; shutting down a
name with no running session returns false without error." -/
def shutdownServer (st : EngineState) (name : String) : EngineState × Bool :=
  match findEntry name st.sessions with
  | none => (st, false)
  | some _ => (dropSession st name, true)

/-- Modelled from the spec: `MCPEngine.list_running_servers` (§4.2
`listRunning`): the names registered in the session map. -/
def listRunning (st : EngineState) : List String :=
  st.sessions.map Prod.fst

/-- The blocked-tool policy for a server, read from its configuration
(§3: `blockedTools`, a set of tool names never executable). -/
def blockedToolsOf (st : EngineState) (name : String) : List String :=
  match findEntry name st.configs with
  | none => []
  | some c => c.blocked_tools.getD []

/-- §7 error taxonomy, restricted to the execution router. -/
inductive ExecError where
  | sessionNotFound
  | toolBlocked
  | executionError (msg : String)
deriving DecidableEq, Repr

/-- Tool-call arguments, a JSON-object dictionary modelled as string
pairs. -/
def ToolArgs : Type := List (String × String)

/-- Outcome of one routed call: the result together with whether the
session transport's invoke operation was issued for this call. -/
structure ExecOutcome where
  result : Except ExecError (List String)
  invoked : Bool
deriving Repr

/-- Modelled from the spec: `MCPEngine.execute_tool`, the Execution Router
(§4.3).  "Validates, in order: (1) the server has a running session — if
not, fails with SessionNotFound; (2) `toolName` is not present in that
server's `blockedTools` — if it is, fails with ToolBlocked without
contacting the session; (3) forwards the call to the session's invoke
operation."  The transport's invoke operation is the oracle `invoke`; the
`invoked` flag records whether it was contacted. -/
def executeTool (st : EngineState) (serverName toolName : String)
    (args : ToolArgs)
    (invoke : String → String → ToolArgs → Except String (List String)) :
    ExecOutcome :=
  match findEntry serverName st.sessions with
  | none => { result := .error .sessionNotFound, invoked := false }
  | some s =>
      if s.status = SessionStatus.running then
        if toolName ∈ blockedToolsOf st serverName then
          { result := .error .toolBlocked, invoked := false }
        else
          match invoke serverName toolName args with
          | .ok r => { result := .ok r, invoked := true }
          | .error m =>
              { result := .error (.executionError m), invoked := true }
      else
        { result := .error .sessionNotFound, invoked := false }

/-! ## Front-end tool operations (`src/pulsar_mcp/mcp_server.py`)

Each FastMCP tool closure of `MCPServer.define_tools` is a Lean function.
The engine/service calls a closure performs (`descriptor_service`,
`embedding_service`, `index_service`, engine lifecycle) are passed in as
function parameters returning `Except String _`: a `.error` value stands
for a raised Python exception, which the closure's `try/except` converts
into the error object the source builds. -/

/-- Raw catalog search hit: the stored payload fields the source reads via
`payload.get(...)` (absent keys are `none`), plus the similarity score
(`result.get('score', 0)`). -/
structure RawResult where
  ptype : Option String
  server_name : Option String
  tool_name : Option String
  title : Option String
  score : Option ℚ
deriving DecidableEq, Repr

/-- One entry of a `semantic_search` response, after the minimisation loop
of mcp_server.py lines 63–79. -/
inductive MinResult where
  | server (server_name : Option String) (title : Option String) (score : ℚ)
  | tool (server_name : Option String) (tool_name : Option String) (score : ℚ)
deriving DecidableEq, Repr

/-- The minimisation loop of `semantic_search` (mcp_server.py lines
63–79): hits typed `server` and `tool` are kept with their reduced
payloads, anything else is dropped. -/
def minimalResults (rs : List RawResult) : List MinResult :=
  rs.filterMap fun r =>
    if r.ptype = some "server" then
      some (.server r.server_name r.title (r.score.getD 0))
    else if r.ptype = some "tool" then
      some (.tool r.server_name r.tool_name (r.score.getD 0))
    else none

/-- Success payload of `semantic_search` (mcp_server.py lines 81–86). -/
structure SearchSuccess where
  query : String
  scope : Option String
  results : List MinResult
  total_found : Nat
deriving DecidableEq, Repr

/-- Error payload of `semantic_search` (mcp_server.py lines 88–93): the
error message plus the original query and scope. -/
structure SearchFailure where
  error : String
  original_query : String
  scope : Option String
deriving DecidableEq, Repr

/-- `semantic_search` (mcp_server.py lines 40–93).  The pipeline of the
`try` block: rewrite the raw query through the descriptor service
(`enhance_query_with_llm`), embed the rewritten text
(`create_embedding([enhanced_query])`, first vector), then run the catalog
search with the caller's `limit`, `server_names` and `scope`.  Any raised
step lands in the `except` branch, as does the `[0]` index error when the
embedding list comes back empty. -/
def semantic_search
    (enhance : String → Except String String)
    (embed : List String → Except String (List (List ℚ)))
    (search : List ℚ → Nat → Option (List String) → Option String →
      Except String (List RawResult))
    (query : String) (limit : Nat) (scope : Option String)
    (server_names : Option (List String)) :
    Except SearchFailure SearchSuccess :=
  match enhance query with
  | .error e =>
      .error { error := "Search failed: " ++ e, original_query := query,
               scope := scope }
  | .ok enhanced_query =>
      match embed [enhanced_query] with
      | .error e =>
          .error { error := "Search failed: " ++ e, original_query := query,
                   scope := scope }
      | .ok [] =>
          .error { error := "Search failed: list index out of range",
                   original_query := query, scope := scope }
      | .ok (query_embedding :: _) =>
          match search query_embedding limit server_names scope with
          | .error e =>
              .error { error := "Search failed: " ++ e,
                       original_query := query, scope := scope }
          | .ok all_results =>
              .ok { query := query, scope := scope,
                    results := minimalResults all_results,
                    total_found := (minimalResults all_results).length }

/-- Error payload of `get_server_info` (mcp_server.py lines 112–116 and
123–127): message plus the requested server name. -/
structure ServerInfoFailure where
  error : String
  server_name : String
deriving DecidableEq, Repr

/-- Success payload of `get_server_info` (mcp_server.py lines 118–121). -/
structure ServerInfoSuccess where
  server_name : String
  server_info : List (String × String)
deriving DecidableEq, Repr

/-- `get_server_info` (mcp_server.py lines 99–127): point lookup in the
index; `None` becomes a not-found error object, a raised exception becomes
a failure object, both carrying the server name. -/
def get_server_info
    (getServer : String → Except String (Option (List (String × String))))
    (server_name : String) : Except ServerInfoFailure ServerInfoSuccess :=
  match getServer server_name with
  | .error e =>
      .error { error := "Failed to get server info: " ++ e,
               server_name := server_name }
  | .ok none =>
      .error { error := "Server not found: " ++ server_name,
               server_name := server_name }
  | .ok (some info) =>
      .ok { server_name := server_name, server_info := info }

/-- One stored server payload as read by `list_indexed_servers`
(`payload.get('server_name')`, `payload.get('title')`,
`payload.get('nb_tools', 0)`). -/
structure ServerPayload where
  server_name : Option String
  title : Option String
  nb_tools : Option Nat
deriving DecidableEq, Repr

/-- The minimal per-server record built by `list_indexed_servers`
(mcp_server.py lines 151–157). -/
structure MinServer where
  server_name : Option String
  title : Option String
  nb_tools : Nat
deriving DecidableEq, Repr

/-- Success payload of `list_indexed_servers` (mcp_server.py lines
159–164). -/
structure ListServersSuccess where
  servers : List MinServer
  total_servers : Nat
  limit : Nat
  offset : Option String
deriving DecidableEq, Repr

/-- Error payload of `list_indexed_servers` (mcp_server.py lines 166–169):
the object carries ONLY the error message — the call's `limit` and
`offset` are not echoed back. -/
structure ListServersFailure where
  error : String
deriving DecidableEq, Repr

/-- `list_indexed_servers` (mcp_server.py lines 133–169): page through the
index (`list_servers`), count servers (`nb_servers`), reduce each payload;
any raised step lands in the bare-message `except` branch. -/
def list_indexed_servers
    (listServers : Nat → Option String → Except String (List ServerPayload))
    (nbServers : Unit → Except String Nat)
    (limit : Nat) (offset : Option String) :
    Except ListServersFailure ListServersSuccess :=
  match listServers limit offset with
  | .error e => .error { error := "Failed to list servers: " ++ e }
  | .ok servers =>
      match nbServers () with
      | .error e => .error { error := "Failed to list servers: " ++ e }
      | .ok total_servers =>
          .ok { servers := servers.map fun p =>
                  { server_name := p.server_name, title := p.title,
                    nb_tools := p.nb_tools.getD 0 },
                total_servers := total_servers, limit := limit,
                offset := offset }

/-- One stored tool payload as read by `list_server_tools`
(`payload.get('tool_name')`, absent keys are `none`). -/
structure ToolPayload where
  tool_name : Option String
deriving DecidableEq, Repr

/-- Success payload of `list_server_tools` (mcp_server.py lines
194–198). -/
structure ListToolsSuccess where
  server_name : String
  tool_names : List (Option String)
  total_tools : Nat
deriving DecidableEq, Repr

/-- Error payload of `list_server_tools` (mcp_server.py lines 200–204):
the message plus the requested server name. -/
structure ListToolsFailure where
  error : String
  server_name : String
deriving DecidableEq, Repr

/-- `list_server_tools` (mcp_server.py lines 175–204): list the indexed
tools of one server (`index_service.list_tools` with `[server_name]`) and
keep the tool names; a raised step lands in the `except` branch carrying
the server name. -/
def list_server_tools
    (listTools : List String → Except String (List ToolPayload))
    (server_name : String) : Except ListToolsFailure ListToolsSuccess :=
  match listTools [server_name] with
  | .error e =>
      .error { error := "Failed to list tools for server " ++ server_name
                 ++ ": " ++ e,
               server_name := server_name }
  | .ok tools =>
      .ok { server_name := server_name,
            tool_names := tools.map fun p => p.tool_name,
            total_tools := (tools.map fun p => p.tool_name).length }

/-- Success payload of `get_tool_details` (mcp_server.py lines 237–241). -/
structure ToolDetailsSuccess where
  tool_name : String
  server_name : String
  tool_info : List (String × String)
deriving DecidableEq, Repr

/-- Error payload of `get_tool_details` (mcp_server.py lines 230–235 and
243–248): the message plus both the tool name and the server name. -/
structure ToolDetailsFailure where
  error : String
  tool_name : String
  server_name : String
deriving DecidableEq, Repr

/-- `get_tool_details` (mcp_server.py lines 213–248): point lookup of one
tool in the index (`index_service.get_tool`); `None` becomes a not-found
error object and a raised exception a failure object, both carrying the
tool and server names. -/
def get_tool_details
    (getTool : String → String →
      Except String (Option (List (String × String))))
    (tool_name server_name : String) :
    Except ToolDetailsFailure ToolDetailsSuccess :=
  match getTool server_name tool_name with
  | .error e =>
      .error { error := "Failed to get tool details: " ++ e,
               tool_name := tool_name, server_name := server_name }
  | .ok none =>
      .error { error := "Tool " ++ tool_name ++ " not found on server "
                 ++ server_name,
               tool_name := tool_name, server_name := server_name }
  | .ok (some info) =>
      .ok { tool_name := tool_name, server_name := server_name,
            tool_info := info }

/-- Result object of `manage_server` (mcp_server.py lines 254–291).
The valid-action branch fills `action` and `status`; the invalid-action
branch (lines 273–278) fills `error` and leaves `action`/`status` unset;
the `except` branch fills `action` and `error`. -/
structure ManageResult where
  server_name : String
  action : Option String
  success : Bool
  status : Option String
  error : Option String
deriving DecidableEq, Repr

/-- `manage_server` (mcp_server.py lines 254–291): dispatch on `action`.
`"start"` drives `MCPEngine.start_mcp_server` and maps its boolean to
status `"running"`/`"failed"`; `"shutdown"` drives
`MCPEngine.shutdown_mcp_server` and maps to `"shutdown"`/`"failed"`; any
other action returns a `success := false` object naming the invalid action
without touching the engine.  The engine operations are the spec-modelled
`startServer`/`shutdownServer` acting on the engine state, so the result
is the updated state paired with the response object. -/
def manage_server (st : EngineState) (server_name : String)
    (action : String) (now : Nat) (transportOk : Bool) :
    EngineState × ManageResult :=
  if action = "start" then
    let r := startServer st server_name now transportOk
    (r.1,
      { server_name := server_name, action := some "start",
        success := r.2,
        status := some (if r.2 then "running" else "failed"),
        error := none })
  else if action = "shutdown" then
    let r := shutdownServer st server_name
    (r.1,
      { server_name := server_name, action := some "shutdown",
        success := r.2,
        status := some (if r.2 then "shutdown" else "failed"),
        error := none })
  else
    (st,
      { server_name := server_name, action := none, success := false,
        status := none,
        error := some ("Invalid action: " ++ action ++
          ". Use start or shutdown.") })

/-- Success payload of `list_running_servers` (mcp_server.py lines
300–303). -/
structure ListRunningSuccess where
  running_servers : List String
  total_running : Nat
deriving DecidableEq, Repr

/-- Error payload of `list_running_servers` (mcp_server.py lines 304–307):
only the error message (the operation takes no parameters). -/
structure ListRunningFailure where
  error : String
deriving DecidableEq, Repr

/-- `list_running_servers` (mcp_server.py lines 297–307), over the
spec-modelled engine state. -/
def list_running_servers (st : EngineState) :
    Except ListRunningFailure ListRunningSuccess :=
  .ok { running_servers := listRunning st,
        total_running := (listRunning st).length }

/-- Error payload of the front-end `execute_tool` (mcp_server.py lines
319–325): success flag, server and tool names, error message. -/
structure ExecToolFailure where
  success : Bool
  server_name : String
  tool_name : String
  error : String
deriving DecidableEq, Repr

/-- The front-end `execute_tool` (mcp_server.py lines 313–325):
`None` arguments are replaced by the empty dict before the call is
forwarded to `MCPEngine.execute_tool` (the oracle `engineExec`); a raised
exception becomes the failure object carrying both names. -/
def execute_tool
    (engineExec : String → String → ToolArgs → Except String (List String))
    (server_name tool_name : String) (arguments : Option ToolArgs) :
    Except ExecToolFailure (List String) :=
  let args : ToolArgs :=
    match arguments with
    | none => []
    | some a => a
  match engineExec server_name tool_name args with
  | .ok r => .ok r
  | .error e =>
      .error { success := false, server_name := server_name,
               tool_name := tool_name, error := e }

/-! ## Helper lemmas -/

theorem findEntry_cons {α : Type} (name k : String) (v : α)
    (t : List (String × α)) :
    findEntry name ((k, v) :: t)
      = if k = name then some v else findEntry name t := rfl

theorem countP_eq_zero_of_not_mem_keys {α : Type} (S : String)
    (l : List (String × α)) (h : S ∉ l.map Prod.fst) :
    l.countP (fun e => decide (e.1 = S)) = 0 := by
  induction l with
  | nil => rfl
  | cons e t ih =>
      simp only [List.map_cons, List.mem_cons] at h
      push_neg at h
      rw [List.countP_cons]
      rw [ih h.2]
      simp [h.1.symm]

theorem countP_eq_one_of_findEntry_some {α : Type} (S : String)
    (l : List (String × α)) (s : α)
    (hnd : (l.map Prod.fst).Nodup) (hf : findEntry S l = some s) :
    l.countP (fun e => decide (e.1 = S)) = 1 := by
  induction l with
  | nil => simp [findEntry] at hf
  | cons e t ih =>
      rw [List.map_cons, List.nodup_cons] at hnd
      rw [List.countP_cons]
      rcases e with ⟨k, v⟩
      rw [findEntry_cons] at hf
      by_cases hk : k = S
      · subst hk
        rw [countP_eq_zero_of_not_mem_keys k t hnd.1]
        simp
      · rw [if_neg hk] at hf
        rw [ih hnd.2 hf]
        simp [hk]

theorem countP_filter_ne_keys {α : Type} (S : String)
    (l : List (String × α)) :
    (l.filter (fun e => e.1 ≠ S)).countP (fun e => decide (e.1 = S)) = 0 := by
  rw [List.countP_eq_zero]
  intro e he
  rw [List.mem_filter] at he
  simpa using he.2

theorem getD_map {α β : Type} (g : α → β) (l : List α) (i : Nat)
    (hi : i < l.length) (d : β) (e : α) :
    (l.map g).getD i d = g (l.getD i e) := by
  induction l generalizing i with
  | nil => simp at hi
  | cons a t ih =>
      cases i with
      | zero => rfl
      | succ n =>
          simp only [List.length_cons, Nat.succ_lt_succ_iff] at hi
          simpa using ih n hi

theorem getD_zipWith (f : ℚ → ℚ → ℚ) (b row : List ℚ) (j : Nat)
    (hj : j < b.length) (hlen : row.length = b.length) :
    (List.zipWith f b row).getD j 0 = f (b.getD j 0) (row.getD j 0) := by
  induction b generalizing row j with
  | nil => simp at hj
  | cons x bt ih =>
      cases row with
      | nil => simp at hlen
      | cons y rt =>
          cases j with
          | zero => rfl
          | succ n =>
              simp only [List.length_cons, Nat.succ_lt_succ_iff] at hj
              simp only [List.length_cons, Nat.succ.injEq] at hlen
              simpa using ih rt n hj hlen

/-! ## Claims -/

/-- C2: constructing a `McpStartupConfig` with both the command group and
the url group populated, or with neither, always fails with the typed
`ConfigError`; construction succeeds exactly when one of the two groups is
populated.  The check is part of construction itself: indexing consumes
only `McpStartupConfig` values, which exist only through a successful
`mkMcpStartupConfig`, so it precedes any indexing attempt. -/
theorem mkMcpStartupConfig_validation (command : Option String)
    (args : List String) (env : List (String × String)) (url : Option String)
    (headers : List (String × String)) (timeout : ℚ) (overwrite : Bool)
    (ignore : Bool) (hints : Option (List String))
    (blocked_tools : Option (List String)) :
    ((mkMcpStartupConfig command args env url headers timeout overwrite
        ignore hints blocked_tools).isOk = true ↔
      command.isSome ≠ url.isSome) ∧
    (command.isSome = true → url.isSome = true →
      mkMcpStartupConfig command args env url headers timeout overwrite
        ignore hints blocked_tools = .error .bothUrlAndCommand) ∧
    (command = none → url = none →
      mkMcpStartupConfig command args env url headers timeout overwrite
        ignore hints blocked_tools = .error .neitherUrlNorCommand) := by
  refine ⟨?_, ?_, ?_⟩ <;>
    cases command <;> cases url <;>
      simp [mkMcpStartupConfig, Except.isOk, Except.toBool]

/-- Witness for `mkMcpStartupConfig_validation` at concrete inputs. -/
theorem mkMcpStartupConfig_validation_witness :
    mkMcpStartupConfig (some "npx") [] [] (some "http-url") [] 30 false
      false none none = .error .bothUrlAndCommand ∧
    mkMcpStartupConfig none [] [] none [] 30 false false none none
      = .error .neitherUrlNorCommand :=
  ⟨(mkMcpStartupConfig_validation (some "npx") [] [] (some "http-url") []
      30 false false none none).2.1 rfl rfl,
   (mkMcpStartupConfig_validation none [] [] none [] 30 false false none
      none).2.2 rfl rfl⟩

/-- C8: for every validly constructed `McpStartupConfig`, the transport
kind is the derived `transport` property (the structure stores no
transport field): it is `"stdio"` exactly when the command group is
populated and `"http"` exactly when the url group is populated. -/
theorem transport_derived (command : Option String) (args : List String)
    (env : List (String × String)) (url : Option String)
    (headers : List (String × String)) (timeout : ℚ) (overwrite : Bool)
    (ignore : Bool) (hints : Option (List String))
    (blocked_tools : Option (List String)) (cfg : McpStartupConfig)
    (h : mkMcpStartupConfig command args env url headers timeout overwrite
      ignore hints blocked_tools = .ok cfg) :
    (cfg.transport = "stdio" ↔ cfg.command.isSome = true) ∧
    (cfg.transport = "http" ↔ cfg.url.isSome = true) := by
  cases command <;> cases url <;>
    simp only [mkMcpStartupConfig] at h
  · exact absurd h (by simp)
  · cases h
    simp [McpStartupConfig.transport]
  · cases h
    simp [McpStartupConfig.transport]
  · exact absurd h (by simp)

/-- Witness for `transport_derived` at a concrete stdio configuration. -/
theorem transport_derived_witness :
    (({ command := some "uvx", args := [], env := [], url := none,
        headers := [], timeout := 30, overwrite := false, ignore := false,
        hints := none,
        blocked_tools := none } : McpStartupConfig).transport = "stdio" ↔
      (some "uvx").isSome = true) ∧
    (({ command := some "uvx", args := [], env := [], url := none,
        headers := [], timeout := 30, overwrite := false, ignore := false,
        hints := none,
        blocked_tools := none } : McpStartupConfig).transport = "http" ↔
      (none : Option String).isSome = true) :=
  transport_derived (some "uvx") [] [] none [] 30 false false none none
    { command := some "uvx", args := [], env := [], url := none,
      headers := [], timeout := 30, overwrite := false, ignore := false,
      hints := none, blocked_tools := none } rfl

/-- C4: `weighted_embedding` returns one blended vector per corpus vector:
the result has the length of the corpus list, and (whenever the rows match
the base vector's dimension, as numpy broadcasting requires) the `j`-th
component of the `i`-th result row is
`alpha * base[j] + (1 - alpha) * corpus[i][j]`.  `alpha` is a parameter of
the function; its Python default is `0.1`, putting weight `1/10` on the
base (server) vector and `9/10` on each corpus (tool) vector. -/
theorem weighted_embedding_blend (b : List ℚ) (vs : List (List ℚ))
    (alpha : ℚ) (hne : vs ≠ []) :
    (weighted_embedding b vs alpha).length = vs.length ∧
    defaultAlpha = 1 / 10 ∧ 1 - defaultAlpha = 9 / 10 ∧
    ∀ (i j : Nat), i < vs.length → j < b.length →
      (vs.getD i []).length = b.length →
      ((weighted_embedding b vs alpha).getD i []).getD j 0
        = alpha * b.getD j 0 + (1 - alpha) * (vs.getD i []).getD j 0 := by
  refine ⟨by simp [weighted_embedding], by norm_num [defaultAlpha],
    by norm_num [defaultAlpha], ?_⟩
  intro i j hi hj hrow
  rw [weighted_embedding,
    getD_map (fun row => List.zipWith
      (fun x y => alpha * x + (1 - alpha) * y) b row) vs i hi [] []]
  · rw [getD_zipWith _ b (vs.getD i []) j hj hrow]

/-- Witness for `weighted_embedding_blend` on a concrete base vector,
corpus and the default blending factor. -/
theorem weighted_embedding_blend_witness :
    ((weighted_embedding [1, 2] [[3, 4], [5, 6]] defaultAlpha).getD 1
        []).getD 0 0
      = defaultAlpha * 1 + (1 - defaultAlpha) * 5 :=
  (weighted_embedding_blend [1, 2] [[3, 4], [5, 6]] defaultAlpha
    (by decide)).2.2.2 1 0 (by decide) (by decide) (by decide)

/-- C1: for every server `S` with a running session and every tool `T` in
`S`'s blocked-tool list, `executeTool` fails with the ToolBlocked error for
any arguments, and the session transport's invoke operation is never
issued for that call. -/
theorem executeTool_blocked (st : EngineState) (S T : String)
    (s : RunningSession) (args : ToolArgs)
    (invoke : String → String → ToolArgs → Except String (List String))
    (hs : findEntry S st.sessions = some s)
    (hrun : s.status = SessionStatus.running)
    (hb : T ∈ blockedToolsOf st S) :
    executeTool st S T args invoke
      = { result := .error .toolBlocked, invoked := false } := by
  rw [executeTool, hs]
  simp [hrun, hb]

/-- Witness for `executeTool_blocked`: a concrete engine state with a
running session for `web` whose config blocks `delete_all`. -/
theorem executeTool_blocked_witness :
    executeTool
      { configs := [("web",
          { command := some "serve-web", args := [], env := [], url := none,
            headers := [], timeout := 30, overwrite := false,
            ignore := false, hints := none,
            blocked_tools := some ["delete_all"] })],
        sessions := [("web",
          { serverName := "web", startedAt := 0,
            status := SessionStatus.running })] }
      "web" "delete_all" []
      (fun _ _ _ => .ok ["should never run"])
      = { result := .error .toolBlocked, invoked := false } :=
  executeTool_blocked _ "web" "delete_all"
    { serverName := "web", startedAt := 0, status := SessionStatus.running }
    [] _ rfl rfl (by simp [blockedToolsOf, findEntry])

/-- C3: starting a configured server `S` whose transport opens
successfully and then, without an intervening shutdown, starting it again
is idempotent: both calls return `true`, the second call leaves the state
untouched, and the session registry holds exactly one RunningSession for
`S` after the second call. -/
theorem startServer_twice_idempotent (st : EngineState) (S : String)
    (now1 now2 : Nat) (ok2 : Bool) (cfg : McpStartupConfig)
    (hwf : st.WF) (hc : findEntry S st.configs = some cfg) :
    (startServer st S now1 true).2 = true ∧
    startServer (startServer st S now1 true).1 S now2 ok2
      = ((startServer st S now1 true).1, true) ∧
    ((startServer st S now1 true).1).sessions.countP
      (fun e => decide (e.1 = S)) = 1 := by
  have hfresh : ∀ now : Nat,
      findEntry S (putSession st S
        { serverName := S, startedAt := now,
          status := SessionStatus.running }).sessions
        = some { serverName := S, startedAt := now,
                 status := SessionStatus.running } := by
    intro now
    simp [putSession, findEntry_cons]
  have hcount : ∀ now : Nat,
      (putSession st S
        { serverName := S, startedAt := now,
          status := SessionStatus.running }).sessions.countP
        (fun e => decide (e.1 = S)) = 1 := by
    intro now
    simp only [putSession, List.countP_cons]
    rw [countP_filter_ne_keys]
    simp
  cases hs : findEntry S st.sessions with
  | some s =>
      by_cases hrun : s.status = SessionStatus.running
      · have h1 : startServer st S now1 true = (st, true) := by
          rw [startServer, hs]
          simp [hrun]
        rw [h1]
        refine ⟨rfl, ?_, ?_⟩
        · rw [startServer, hs]
          simp [hrun]
        · exact countP_eq_one_of_findEntry_some S st.sessions s hwf hs
      · have h1 : startServer st S now1 true
            = (putSession st S
                { serverName := S, startedAt := now1,
                  status := SessionStatus.running }, true) := by
          rw [startServer, hs]
          simp [hrun, hc]
        rw [h1]
        refine ⟨rfl, ?_, hcount now1⟩
        rw [startServer, hfresh now1]
        simp
  | none =>
      have h1 : startServer st S now1 true
          = (putSession st S
              { serverName := S, startedAt := now1,
                status := SessionStatus.running }, true) := by
        rw [startServer, hs]
        simp [hc]
      rw [h1]
      refine ⟨rfl, ?_, hcount now1⟩
      rw [startServer, hfresh now1]
      simp

/-- Witness for `startServer_twice_idempotent`: the `web` server from an
empty session registry. -/
theorem startServer_twice_idempotent_witness :
    (startServer
      { configs := [("web",
          { command := some "serve-web", args := [], env := [], url := none,
            headers := [], timeout := 30, overwrite := false,
            ignore := false, hints := none,
            blocked_tools := some ["delete_all"] })],
        sessions := [] } "web" 0 true).2 = true ∧
    startServer
      (startServer
        { configs := [("web",
            { command := some "serve-web", args := [], env := [],
              url := none, headers := [], timeout := 30, overwrite := false,
              ignore := false, hints := none,
              blocked_tools := some ["delete_all"] })],
          sessions := [] } "web" 0 true).1 "web" 7 false
      = ((startServer
          { configs := [("web",
              { command := some "serve-web", args := [], env := [],
                url := none, headers := [], timeout := 30,
                overwrite := false, ignore := false, hints := none,
                blocked_tools := some ["delete_all"] })],
            sessions := [] } "web" 0 true).1, true) ∧
    ((startServer
        { configs := [("web",
            { command := some "serve-web", args := [], env := [],
              url := none, headers := [], timeout := 30, overwrite := false,
              ignore := false, hints := none,
              blocked_tools := some ["delete_all"] })],
          sessions := [] } "web" 0 true).1).sessions.countP
      (fun e => decide (e.1 = "web")) = 1 :=
  startServer_twice_idempotent
    { configs := [("web",
        { command := some "serve-web", args := [], env := [], url := none,
          headers := [], timeout := 30, overwrite := false, ignore := false,
          hints := none, blocked_tools := some ["delete_all"] })],
      sessions := [] } "web" 0 7 false
    { command := some "serve-web", args := [], env := [], url := none,
      headers := [], timeout := 30, overwrite := false, ignore := false,
      hints := none, blocked_tools := some ["delete_all"] }
    (by simp [EngineState.WF]) rfl

/-- C5: `semantic_search` first rewrites the raw query through the
descriptor enricher, embeds the rewritten text (not the raw query), and
runs the catalog search on that embedding with the caller's `limit`,
`scope` and `server_names` passed through unchanged. -/
theorem semantic_search_pipeline
    (enhance : String → Except String String)
    (embed : List String → Except String (List (List ℚ)))
    (search : List ℚ → Nat → Option (List String) → Option String →
      Except String (List RawResult))
    (query : String) (limit : Nat) (scope : Option String)
    (server_names : Option (List String)) (enhanced_query : String)
    (v : List ℚ) (rest : List (List ℚ)) (rs : List RawResult)
    (h1 : enhance query = .ok enhanced_query)
    (h2 : embed [enhanced_query] = .ok (v :: rest))
    (h3 : search v limit server_names scope = .ok rs) :
    semantic_search enhance embed search query limit scope server_names
      = .ok { query := query, scope := scope, results := minimalResults rs,
              total_found := (minimalResults rs).length } := by
  simp only [semantic_search, h1, h2, h3]

/-- Witness for `semantic_search_pipeline` on concrete enrichment,
embedding and search oracles. -/
theorem semantic_search_pipeline_witness :
    semantic_search (fun q => .ok (q ++ " expanded"))
      (fun _ => .ok [[1, 0]])
      (fun _ _ _ _ => .ok [])
      "find pdf tools" 10 (some "tool") (some ["web"])
      = .ok { query := "find pdf tools", scope := some "tool",
              results := [], total_found := 0 } :=
  semantic_search_pipeline (fun q => .ok (q ++ " expanded"))
    (fun _ => .ok [[1, 0]]) (fun _ _ _ _ => .ok [])
    "find pdf tools" 10 (some "tool") (some ["web"])
    "find pdf tools expanded" [1, 0] [] [] rfl rfl rfl

/-- C6: `manage_server` maps the engine's boolean outcome to a success
flag and a status: a successful start yields `success = true` with status
`"running"`, a successful shutdown yields `success = true` with status
`"shutdown"`, and a `false` outcome of either operation yields
`success = false` with status `"failed"`. -/
theorem manage_server_status (st : EngineState) (S : String) (now : Nat)
    (tOk : Bool) :
    ((startServer st S now tOk).2 = true →
      (manage_server st S "start" now tOk).2
        = { server_name := S, action := some "start", success := true,
            status := some "running", error := none }) ∧
    ((startServer st S now tOk).2 = false →
      (manage_server st S "start" now tOk).2
        = { server_name := S, action := some "start", success := false,
            status := some "failed", error := none }) ∧
    ((shutdownServer st S).2 = true →
      (manage_server st S "shutdown" now tOk).2
        = { server_name := S, action := some "shutdown", success := true,
            status := some "shutdown", error := none }) ∧
    ((shutdownServer st S).2 = false →
      (manage_server st S "shutdown" now tOk).2
        = { server_name := S, action := some "shutdown", success := false,
            status := some "failed", error := none }) := by
  refine ⟨?_, ?_, ?_, ?_⟩ <;> intro h <;> simp [manage_server, h]

/-- Witness for `manage_server_status`: starting the configured `web`
server succeeds and reports status `running`; shutting down a server with
no session reports status `failed`. -/
theorem manage_server_status_witness :
    (manage_server
      { configs := [("web",
          { command := some "serve-web", args := [], env := [], url := none,
            headers := [], timeout := 30, overwrite := false,
            ignore := false, hints := none,
            blocked_tools := some ["delete_all"] })],
        sessions := [] } "web" "start" 0 true).2
      = { server_name := "web", action := some "start", success := true,
          status := some "running", error := none } ∧
    (manage_server
      { configs := [], sessions := [] } "web" "shutdown" 0 true).2
      = { server_name := "web", action := some "shutdown", success := false,
          status := some "failed", error := none } :=
  ⟨(manage_server_status
      { configs := [("web",
          { command := some "serve-web", args := [], env := [], url := none,
            headers := [], timeout := 30, overwrite := false,
            ignore := false, hints := none,
            blocked_tools := some ["delete_all"] })],
        sessions := [] } "web" 0 true).1 rfl,
   (manage_server_status
      { configs := [], sessions := [] } "web" 0 true).2.2.2 rfl⟩

/-- C9: for any action other than `"start"` or `"shutdown"`,
`manage_server` returns `success = false` with the given server name and
an error message naming the invalid action, leaves the engine state
untouched (no session is started or shut down), and raises no
exception. -/
theorem manage_server_invalid_action (st : EngineState) (S action : String)
    (now : Nat) (tOk : Bool) (h1 : action ≠ "start")
    (h2 : action ≠ "shutdown") :
    manage_server st S action now tOk
      = (st, { server_name := S, action := none, success := false,
               status := none,
               error := some ("Invalid action: " ++ action ++
                 ". Use start or shutdown.") }) := by
  rw [manage_server, if_neg h1, if_neg h2]

/-- Witness for `manage_server_invalid_action` at the action
`"restart"`. -/
theorem manage_server_invalid_action_witness :
    manage_server { configs := [], sessions := [] } "web" "restart" 0 true
      = ({ configs := [], sessions := [] },
         { server_name := "web", action := none, success := false,
           status := none,
           error := some ("Invalid action: " ++ "restart" ++
             ". Use start or shutdown.") }) :=
  manage_server_invalid_action { configs := [], sessions := [] } "web"
    "restart" 0 true (by decide) (by decide)

/-- C10: calling the front-end `execute_tool` with the arguments omitted
(`None`) forwards the empty dictionary to the engine's tool execution, so
it behaves identically to a call with explicitly empty arguments. -/
theorem execute_tool_none_args
    (engineExec : String → String → ToolArgs → Except String (List String))
    (S T : String) :
    execute_tool engineExec S T none
      = execute_tool engineExec S T (some ([] : ToolArgs)) ∧
    (∀ r : List String, engineExec S T [] = .ok r →
      execute_tool engineExec S T none = .ok r) := by
  refine ⟨rfl, ?_⟩
  intro r h
  simp [execute_tool, h]

/-- Witness for `execute_tool_none_args`: an engine oracle that answers
only the empty dictionary. -/
theorem execute_tool_none_args_witness :
    execute_tool
      (fun _ _ a => if a.isEmpty then .ok ["empty args"]
        else .error "nonempty")
      "web" "fetch" none = .ok ["empty args"] :=
  (execute_tool_none_args
    (fun _ _ a => if a.isEmpty then .ok ["empty args"]
      else .error "nonempty")
    "web" "fetch").2 ["empty args"] rfl

/-- C7 counterexample: the error object of `list_indexed_servers` carries
only the message — two calls differing in their identifying parameters
(`limit`, `offset`) return the very same failure object, so the original
parameters of the call are not part of it. -/
theorem list_indexed_servers_error_without_params :
    list_indexed_servers (fun _ _ => .error "store down")
        (fun _ => .ok 0) 5 none
      = list_indexed_servers (fun _ _ => .error "store down")
        (fun _ => .ok 0) 99 (some "page2") ∧
    list_indexed_servers (fun _ _ => .error "store down")
        (fun _ => .ok 0) 5 none
      = .error { error := "Failed to list servers: store down" } :=
  ⟨rfl, rfl⟩

/-- C7 (amended): every failure object of an operation whose inputs carry
identifying context echoes that context — `semantic_search` failures carry
the original query and scope, `get_server_info` failures the server name,
`list_server_tools` failures the server name, `get_tool_details` failures
the tool and server names, `execute_tool` failures the server and tool
names, and every `manage_server` result the server name — while a
`list_indexed_servers` failure carries only the error message, without its
`limit`/`offset` parameters. -/
theorem error_objects_carry_context (query : String) (limit : Nat)
    (scope : Option String) (server_names : Option (List String))
    (S T : String) (args : Option ToolArgs) :
    (∀ (enhance : String → Except String String)
        (embed : List String → Except String (List (List ℚ)))
        (search : List ℚ → Nat → Option (List String) → Option String →
          Except String (List RawResult)) (fail : SearchFailure),
      semantic_search enhance embed search query limit scope server_names
          = .error fail →
      fail.original_query = query ∧ fail.scope = scope) ∧
    (∀ (getServer : String →
          Except String (Option (List (String × String))))
        (fail : ServerInfoFailure),
      get_server_info getServer S = .error fail → fail.server_name = S) ∧
    (∀ (listTools : List String → Except String (List ToolPayload))
        (fail : ListToolsFailure),
      list_server_tools listTools S = .error fail →
      fail.server_name = S) ∧
    (∀ (getTool : String → String →
          Except String (Option (List (String × String))))
        (fail : ToolDetailsFailure),
      get_tool_details getTool T S = .error fail →
      fail.tool_name = T ∧ fail.server_name = S) ∧
    (∀ (engineExec : String → String → ToolArgs →
          Except String (List String)) (fail : ExecToolFailure),
      execute_tool engineExec S T args = .error fail →
      fail.server_name = S ∧ fail.tool_name = T) ∧
    (∀ (st : EngineState) (now : Nat) (tOk : Bool) (action : String),
      ((manage_server st S action now tOk).2).server_name = S) ∧
    (∀ (listServers : Nat → Option String →
          Except String (List ServerPayload))
        (nbServers : Unit → Except String Nat) (off : Option String)
        (m : String),
      listServers limit off = .error m →
      list_indexed_servers listServers nbServers limit off
        = .error { error := "Failed to list servers: " ++ m }) := by
  refine ⟨?_, ?_, ?_, ?_, ?_, ?_, ?_⟩
  · intro enhance embed search fail h
    cases he : enhance query with
    | error e =>
        simp only [semantic_search, he] at h
        cases h
        exact ⟨rfl, rfl⟩
    | ok enhanced_query =>
        cases hm : embed [enhanced_query] with
        | error e =>
            simp only [semantic_search, he, hm] at h
            cases h
            exact ⟨rfl, rfl⟩
        | ok l =>
            cases l with
            | nil =>
                simp only [semantic_search, he, hm] at h
                cases h
                exact ⟨rfl, rfl⟩
            | cons v rest =>
                cases hsr : search v limit server_names scope with
                | error e =>
                    simp only [semantic_search, he, hm, hsr] at h
                    cases h
                    exact ⟨rfl, rfl⟩
                | ok rs =>
                    simp only [semantic_search, he, hm, hsr] at h
                    exact Except.noConfusion h
  · intro getServer fail h
    cases hg : getServer S with
    | error e =>
        simp only [get_server_info, hg] at h
        cases h
        exact rfl
    | ok o =>
        cases o with
        | none =>
            simp only [get_server_info, hg] at h
            cases h
            exact rfl
        | some info =>
            simp only [get_server_info, hg] at h
            exact Except.noConfusion h
  · intro listTools fail h
    cases hl : listTools [S] with
    | error e =>
        simp only [list_server_tools, hl] at h
        cases h
        exact rfl
    | ok tools =>
        simp only [list_server_tools, hl] at h
        exact Except.noConfusion h
  · intro getTool fail h
    cases hg : getTool S T with
    | error e =>
        simp only [get_tool_details, hg] at h
        cases h
        exact ⟨rfl, rfl⟩
    | ok o =>
        cases o with
        | none =>
            simp only [get_tool_details, hg] at h
            cases h
            exact ⟨rfl, rfl⟩
        | some info =>
            simp only [get_tool_details, hg] at h
            exact Except.noConfusion h
  · intro engineExec fail h
    cases args with
    | none =>
        cases hx : engineExec S T [] with
        | error e =>
            simp only [execute_tool, hx] at h
            cases h
            exact ⟨rfl, rfl⟩
        | ok r =>
            simp only [execute_tool, hx] at h
            exact Except.noConfusion h
    | some a =>
        cases hx : engineExec S T a with
        | error e =>
            simp only [execute_tool, hx] at h
            cases h
            exact ⟨rfl, rfl⟩
        | ok r =>
            simp only [execute_tool, hx] at h
            exact Except.noConfusion h
  · intro st now tOk action
    rw [manage_server]
    by_cases ha : action = "start"
    · rw [if_pos ha]
    · rw [if_neg ha]
      by_cases hb : action = "shutdown"
      · rw [if_pos hb]
      · rw [if_neg hb]
  · intro listServers nbServers off m h
    simp only [list_indexed_servers, h]

/-- Witness for `error_objects_carry_context` on concrete failing
oracles. -/
theorem error_objects_carry_context_witness :
    (({ error := "Search failed: embedder down",
        original_query := "find pdf tools",
        scope := none } : SearchFailure).original_query = "find pdf tools"
      ∧ ({ error := "Search failed: embedder down",
           original_query := "find pdf tools",
           scope := none } : SearchFailure).scope = none) ∧
    ({ error := "Failed to list tools for server web: index down",
       server_name := "web" } : ListToolsFailure).server_name = "web" ∧
    (({ error := "Tool fetch not found on server web",
        tool_name := "fetch",
        server_name := "web" } : ToolDetailsFailure).tool_name = "fetch"
      ∧ ({ error := "Tool fetch not found on server web",
           tool_name := "fetch",
           server_name := "web" } : ToolDetailsFailure).server_name
          = "web") ∧
    list_indexed_servers (fun _ _ => .error "store down")
        (fun _ => .ok 0) 20 none
      = .error { error := "Failed to list servers: store down" } :=
  ⟨(error_objects_carry_context "find pdf tools" 20 none none "web"
      "fetch" none).1
    (fun q => .ok q) (fun _ => .error "embedder down")
    (fun _ _ _ _ => .ok [])
    { error := "Search failed: embedder down",
      original_query := "find pdf tools", scope := none } rfl,
   (error_objects_carry_context "find pdf tools" 20 none none "web"
      "fetch" none).2.2.1
    (fun _ => .error "index down")
    { error := "Failed to list tools for server web: index down",
      server_name := "web" } rfl,
   (error_objects_carry_context "find pdf tools" 20 none none "web"
      "fetch" none).2.2.2.1
    (fun _ _ => .ok none)
    { error := "Tool fetch not found on server web",
      tool_name := "fetch", server_name := "web" } rfl,
   (error_objects_carry_context "find pdf tools" 20 none none "web"
      "fetch" none).2.2.2.2.2.2
    (fun _ _ => .error "store down") (fun _ => .ok 0) none "store down"
    rfl⟩

end OmniMCP
